import Mathlib

/-!
Shallow embedding of `homework.py` / `exceptions.py` (a Telegram homework
status bot).  Python values appearing in API payloads are modelled by
`JValue`; Python exceptions relevant to the program by `PyExc`.  The
network is abstracted by `FetchOutcome` (what `requests.get` did); the
Telegram side is abstracted by recording every `send_message` call in the
trace (`send_message` itself swallows `TelegramError`, so delivery
failures never propagate and are irrelevant to control flow).  Logging
performed inside helper functions (`get_api_answer`, `check_response`,
`parse_status`, `send_message`) is not recorded; only `logger` calls made
directly in the loop body of `main` are kept in the trace, since no property
below depends on helper-internal logging.
-/

/-- JSON-like Python values (payloads decoded from the API response). -/
inductive JValue where
  | null : JValue
  | bool : Bool → JValue
  | int : Int → JValue
  | str : String → JValue
  | list : List JValue → JValue
  | obj : List (String × JValue) → JValue

/-- The Python exceptions the program can raise or meet, with their
`str()` payload.  `wrongFormatErr` is `WrongFormatError` from
`exceptions.py` (a subclass of `TypeError`); `expectedStatusesErr` is
`ExpectedStatusesError`; `endpointErr` is `EndpointError`. -/
inductive PyExc where
  | typeErr : String → PyExc
  | valueErr : String → PyExc
  | keyErr : String → PyExc
  | indexErr : String → PyExc
  | attributeErr : String → PyExc
  | wrongFormatErr : String → PyExc
  | expectedStatusesErr : String → PyExc
  | endpointErr : String → PyExc

/-- Python `str()` of an exception: `KeyError` wraps its message in
single quotes, the rest return the message verbatim. -/
def PyExc.toMessage : PyExc → String
  | .typeErr m => m
  | .valueErr m => m
  | .keyErr m => "\x27" ++ m ++ "\x27"
  | .indexErr m => m
  | .attributeErr m => m
  | .wrongFormatErr m => m
  | .expectedStatusesErr m => m
  | .endpointErr m => m

/-- Python truthiness (`if not homework`, `all((...))`). -/
def pyTruthy : JValue → Bool
  | .null => false
  | .bool b => b
  | .int n => n != 0
  | .str s => s != ""
  | .list xs => !xs.isEmpty
  | .obj kvs => !kvs.isEmpty

/-- Python `str()` of a value, as used inside an f-string.  Container
values never reach an f-string in the traced scenarios, so their repr is
abbreviated. -/
def pyStr : JValue → String
  | .null => "None"
  | .bool true => "True"
  | .bool false => "False"
  | .int n => toString n
  | .str s => s
  | .list _ => "<list>"
  | .obj _ => "<dict>"

/-- Python `==` between a value and a `str` (used by `in` on lists):
different types never compare equal. -/
def pyEqStr (v : JValue) (s : String) : Bool :=
  match v with
  | .str t => t == s
  | _ => false

/-- Key membership in an association list, Python `key in dict`. -/
def hasKey (key : String) (kvs : List (String × JValue)) : Bool :=
  kvs.any (fun kv => kv.1 == key)

/-- Python `key in container`: dict key membership, list element
membership, substring test on strings; `TypeError` otherwise. -/
def pyContains (key : String) : JValue → Except PyExc Bool
  | .obj kvs => .ok (hasKey key kvs)
  | .list xs => .ok (xs.any (fun v => pyEqStr v key))
  | .str s => .ok (decide (key.data <:+: s.data))
  | v => .error (.typeErr ("argument of type " ++ pyStr v ++ " is not iterable"))

/-- Python `container[key]` with a string key. -/
def pyGetItem (v : JValue) (key : String) : Except PyExc JValue :=
  match v with
  | .obj kvs =>
    match kvs.lookup key with
    | some x => .ok x
    | none => .error (.keyErr key)
  | .list _ => .error (.typeErr "list indices must be integers or slices, not str")
  | .str _ => .error (.typeErr "string indices must be integers")
  | _ => .error (.typeErr "object is not subscriptable")

/-- Python `container[i]` with an integer index (only the in-range /
out-of-range behaviour on lists is ever exercised). -/
def pyIndex (v : JValue) (i : Nat) : Except PyExc JValue :=
  match v with
  | .list xs =>
    match xs[i]? with
    | some x => .ok x
    | none => .error (.indexErr "list index out of range")
  | w => .error (.typeErr ("object " ++ pyStr w ++ " is not subscriptable"))

/-- The module-level constant `ENDPOINT`. -/
def ENDPOINT : String := "https://practicum.yandex.ru/api/user_api/homework_statuses/"

/-- The module-level constant `HOMEWORK_VERDICTS` (a dict, modelled as an
association list). -/
def HOMEWORK_VERDICTS : List (String × String) :=
  [("approved", "Работа проверена: ревьюеру всё понравилось. Ура!"),
   ("reviewing", "Работа взята на проверку ревьюером."),
   ("rejected", "Работа проверена: у ревьюера есть замечания.")]

/-- Python `status in HOMEWORK_VERDICTS` on the string-keyed dict: a
string is a key iff the table holds it; other hashable values (`None`,
booleans, integers) are simply not keys; lists and dicts are unhashable,
so the membership test itself raises `TypeError`. -/
def verdictsContains : JValue → Except PyExc Bool
  | .str s => .ok (HOMEWORK_VERDICTS.lookup s).isSome
  | .list _ => .error (.typeErr "unhashable type: \x27list\x27")
  | .obj _ => .error (.typeErr "unhashable type: \x27dict\x27")
  | _ => .ok false

/-- Python `HOMEWORK_VERDICTS[status]`: key lookup on the string-keyed
dict — `KeyError` for a hashable non-key, `TypeError` for an unhashable
status (only ever reached after the membership test succeeded). -/
def verdictGetItem : JValue → Except PyExc String
  | .str s =>
    match HOMEWORK_VERDICTS.lookup s with
    | some v => .ok v
    | none => .error (.keyErr s)
  | .list _ => .error (.typeErr "unhashable type: \x27list\x27")
  | .obj _ => .error (.typeErr "unhashable type: \x27dict\x27")
  | v => .error (.keyErr (pyStr v))

/-- `check_response(response)`: membership test for `homeworks`, the
immediate `response["homeworks"]` access, membership test for
`current_date`, the `is None` test, and the `isinstance(list)` test, in
source order.  Returns the homeworks value; the cursor is neither
type-checked nor returned. -/
def check_response (response : JValue) : Except PyExc JValue :=
  match pyContains "homeworks" response with
  | .error e => .error e
  | .ok false => .error (.typeErr "Ключ homeworks отсутствует при получения ответа от API ")
  | .ok true =>
    match pyGetItem response "homeworks" with
    | .error e => .error e
    | .ok homework =>
      match pyContains "current_date" response with
      | .error e => .error e
      | .ok false => .error (.typeErr "Ключ current_date отсутствует при получения ответа от API ")
      | .ok true =>
        match homework with
        | .null => .error (.valueErr "Получен пустой ответ от API")
        | .list xs => .ok (.list xs)
        | _ => .error (.wrongFormatErr "В ответе API домашки представлены не списком")

/-- `parse_status(homework)`: the truthiness guard, the `status` and
`homework_name` membership tests and accesses, the verdict-table check,
and the final f-string, in source order. -/
def parse_status (homework : JValue) : Except PyExc String :=
  if pyTruthy homework = false then
    .error (.typeErr "Список с домишками пуст")
  else
    match pyContains "status" homework with
    | .error e => .error e
    | .ok false => .error (.keyErr "Ключ status отсутствует при получения ответа от API ")
    | .ok true =>
      match pyGetItem homework "status" with
      | .error e => .error e
      | .ok status =>
        match pyContains "homework_name" homework with
        | .error e => .error e
        | .ok false => .error (.keyErr "Ключ homework_name отсутствует при получения ответа от API ")
        | .ok true =>
          match pyGetItem homework "homework_name" with
          | .error e => .error e
          | .ok homework_name =>
            match verdictsContains status with
            | .error e => .error e
            | .ok false => .error (.expectedStatusesErr "Недокументированный статус домашней работы")
            | .ok true =>
              match verdictGetItem status with
              | .error e => .error e
              | .ok verdict =>
                .ok ("Изменился статус проверки работы \"" ++ pyStr homework_name ++ "\". " ++ verdict)

/-- What `requests.get(ENDPOINT, ...)` did in one cycle: returned a
response (status code plus decoded JSON body), or raised
`requests.exceptions.HTTPError`, or raised some other
`requests.RequestException` (connection error, timeout, ...). -/
inductive FetchOutcome where
  | resp : Nat → JValue → FetchOutcome
  | httpError : String → FetchOutcome
  | reqException : String → FetchOutcome

/-- `get_api_answer(timestamp)`.  When `requests.get` raised, the except
clause only logs, `homework_statuses` stays `None`, and the subsequent
`homework_statuses.status_code` raises `AttributeError`.  When a response
arrived, a non-200 status code raises `EndpointError`; otherwise the
decoded body is returned.  The timestamp only feeds the `from_date` query
parameter, which the abstracted network ignores. -/
def get_api_answer (_timestamp : Int) (fetch : FetchOutcome) : Except PyExc JValue :=
  match fetch with
  | .resp sc body =>
    if sc ≠ 200 then
      .error (.endpointErr ("Эндпоинт " ++ ENDPOINT ++ " недоступен. StatusCode: " ++ toString sc))
    else
      .ok body
  | .httpError _ => .error (.attributeErr "NoneType object has no attribute status_code")
  | .reqException _ => .error (.attributeErr "NoneType object has no attribute status_code")

/-- A `send_message` call in `main`, tagged by call site: the
status-change notification (the `parse_status` text), the
`EndpointError` report, or a failure report from an exception handler. -/
inductive Msg where
  | status : String → Msg
  | endpointErr : String → Msg
  | failure : String → Msg

/-- Mutable state of the loop in `main`: `timestamp` and `status_work`. -/
structure LoopState where
  timestamp : Int
  status_work : Option JValue

/-- Observable outcome of running (part of) the loop: final state,
chat messages sent, `main`-level log lines, and the exception that
escaped the loop uncaught, if any. -/
structure CycleResult where
  state : LoopState
  sent : List Msg
  logs : List String
  crash : Option PyExc

/-- Body of the inner `try` in `main`: `check_response`, `homework[0]`,
`parse_status`, and the `status_work is None` branch that sends the
notification and then assigns `status_work = homework[0]["status"]`.
Returns the messages sent so far together with the updated state or the
raised exception (messages sent before a raise are still delivered). -/
def cycleBody (st : LoopState) (response : JValue) : List Msg × Except PyExc LoopState :=
  match check_response response with
  | .error e => ([], .error e)
  | .ok homework =>
    match pyIndex homework 0 with
    | .error e => ([], .error e)
    | .ok first =>
      match parse_status first with
      | .error e => ([], .error e)
      | .ok message =>
        match st.status_work with
        | some _ => ([], .ok st)
        | none =>
          match pyGetItem first "status" with
          | .error e => ([Msg.status message], .error e)
          | .ok s => ([Msg.status message], .ok (LoopState.mk st.timestamp (some s)))

/-- One iteration of `while True`.  `except EndpointError` sends the
error text to the chat and logs it; any other exception out of
`get_api_answer` is uncaught and escapes (`crash`).  Every exception out
of the inner body is a subclass of `Exception`, and the three inner
handlers (`TypeError`, `ValueError`, `Exception`) have identical bodies:
send and log `Сбой в работе программы: {error}`.  `timestamp` is never
reassigned.  The `finally: time.sleep(RETRY_PERIOD)` carries no state. -/
def runCycle (st : LoopState) (fetch : FetchOutcome) : CycleResult :=
  match get_api_answer st.timestamp fetch with
  | .error (.endpointErr m) =>
    CycleResult.mk st [Msg.endpointErr (PyExc.toMessage (.endpointErr m))]
      [PyExc.toMessage (.endpointErr m)] none
  | .error e => CycleResult.mk st [] [] (some e)
  | .ok response =>
    match cycleBody st response with
    | (msgs, .ok st2) => CycleResult.mk st2 msgs [] none
    | (msgs, .error e) =>
      CycleResult.mk st (msgs ++ [Msg.failure ("Сбой в работе программы: " ++ PyExc.toMessage e)])
        ["Сбой в работе программы: " ++ PyExc.toMessage e] none

/-- The loop of `main` run over a finite schedule of fetch outcomes: cycles
are chained in program order, their traces concatenated; an uncaught
exception ends the run (the remaining schedule is never reached). -/
def runLoop : LoopState → List FetchOutcome → CycleResult
  | st, [] => CycleResult.mk st [] [] none
  | st, f :: fs =>
    match (runCycle st f).crash with
    | some e => CycleResult.mk (runCycle st f).state (runCycle st f).sent (runCycle st f).logs (some e)
    | none =>
      CycleResult.mk (runLoop (runCycle st f).state fs).state
        ((runCycle st f).sent ++ (runLoop (runCycle st f).state fs).sent)
        ((runCycle st f).logs ++ (runLoop (runCycle st f).state fs).logs)
        (runLoop (runCycle st f).state fs).crash

/-- Truthiness of an environment variable as `all((...))` sees it:
`None` and the empty string are falsy. -/
def envTruthy : Option String → Bool
  | none => false
  | some s => s != ""

/-- `check_tokens()`: `all((PRACTICUM_TOKEN, TELEGRAM_TOKEN, TELEGRAM_CHAT_ID))`. -/
def check_tokens (practicum_token telegram_token telegram_chat_id : Option String) : Bool :=
  envTruthy practicum_token && envTruthy telegram_token && envTruthy telegram_chat_id

/-- How `main` starts: either the loop is entered, or the process exits
with the given status code. -/
inductive StartupResult where
  | exited : Nat → StartupResult
  | entered : StartupResult

/-- The pre-loop guard of `main`: on missing tokens it logs at critical level
and calls `exit()` — which raises `SystemExit(None)`, i.e. process exit
status 0.  Returns the outcome and the critical log lines. -/
def mainStartup (p t c : Option String) : StartupResult × List String :=
  if check_tokens p t c then
    (StartupResult.entered, [])
  else
    (StartupResult.exited 0, ["Отсутствует обязательный TOKEN или ID."])

/-- Recognizer for the status-change notification call site. -/
def Msg.isStatus : Msg → Bool
  | .status _ => true
  | _ => false

/-- Number of status-change notifications in a trace. -/
def countStatus (ms : List Msg) : Nat := (ms.filter Msg.isStatus).length

/-- Concrete schedule entry: a successful response whose single record
has status `reviewing`. -/
def fetchReviewing : FetchOutcome :=
  .resp 200 (.obj [("homeworks",
    .list [.obj [("status", .str "reviewing"), ("homework_name", .str "X")]]),
    ("current_date", .int 1)])

/-- Concrete schedule entry: a successful response whose single record
has status `approved` and a later cursor. -/
def fetchApproved : FetchOutcome :=
  .resp 200 (.obj [("homeworks",
    .list [.obj [("status", .str "approved"), ("homework_name", .str "X")]]),
    ("current_date", .int 2)])

theorem countStatus_append (a b : List Msg) :
    countStatus (a ++ b) = countStatus a + countStatus b := by
  simp [countStatus, List.filter_append]

theorem lookup_cons_key (k key : String) (w : JValue) (t : List (String × JValue)) :
    ((k, w) :: t).lookup key = if k = key then some w else t.lookup key := by
  by_cases h : k = key
  · simp [List.lookup, h]
  · have h2 : (key == k) = false := by simp [Ne.symm h]
    simp [List.lookup, h2, h]

theorem hasKey_cons (k key : String) (w : JValue) (t : List (String × JValue)) :
    hasKey key ((k, w) :: t) = ((k == key) || hasKey key t) := rfl

/-- A successful key lookup implies the membership test succeeds. -/
theorem lookup_some_hasKey {key : String} {kvs : List (String × JValue)} {v : JValue}
    (h : kvs.lookup key = some v) : hasKey key kvs = true := by
  induction kvs with
  | nil => simp [List.lookup] at h
  | cons kv t ih =>
    obtain ⟨k, w⟩ := kv
    rw [lookup_cons_key] at h
    rw [hasKey_cons]
    by_cases hk : k = key
    · simp [hk]
    · simp [hk] at h ⊢
      exact ih h

/-- A successful membership test implies the lookup succeeds. -/
theorem hasKey_lookup_some {key : String} {kvs : List (String × JValue)}
    (h : hasKey key kvs = true) : ∃ v, kvs.lookup key = some v := by
  induction kvs with
  | nil => simp [hasKey] at h
  | cons kv t ih =>
    obtain ⟨k, w⟩ := kv
    rw [hasKey_cons] at h
    rw [lookup_cons_key]
    by_cases hk : k = key
    · exact ⟨w, by simp [hk]⟩
    · simp [hk] at h ⊢
      exact ih h

/-- If `parse_status` succeeded on a record, the subsequent
`homework[0]["status"]` access in the loop cannot fail. -/
theorem parse_status_ok_getItem {hw : JValue} {m : String}
    (h : parse_status hw = .ok m) : ∃ v, pyGetItem hw "status" = .ok v := by
  cases hget : pyGetItem hw "status" with
  | ok v => exact ⟨v, rfl⟩
  | error e =>
    unfold parse_status at h
    split at h
    · exact Except.noConfusion h
    · split at h
      · exact Except.noConfusion h
      · exact Except.noConfusion h
      · rw [hget] at h
        exact Except.noConfusion h

/-- Exhaustive case analysis of the inner cycle body: it either raises
without having sent anything, skips because `status_work` is already
set, or (from an unset `status_work`) sends exactly one status-change
notification and sets `status_work`. -/
theorem cycleBody_cases (st : LoopState) (r : JValue) :
    (∃ e, cycleBody st r = ([], .error e))
  ∨ (cycleBody st r = ([], .ok st) ∧ st.status_work ≠ none)
  ∨ (∃ m s, st.status_work = none ∧
      cycleBody st r = ([Msg.status m], .ok (LoopState.mk st.timestamp (some s)))) := by
  unfold cycleBody
  split
  · rename_i e _
    exact Or.inl ⟨e, rfl⟩
  · rename_i homework _
    split
    · rename_i e _
      exact Or.inl ⟨e, rfl⟩
    · rename_i first _
      split
      · rename_i e _
        exact Or.inl ⟨e, rfl⟩
      · rename_i message hparse
        split
        · rename_i v hsw
          exact Or.inr (Or.inl ⟨rfl, by simp [hsw]⟩)
        · rename_i hsw
          split
          · rename_i e hget
            obtain ⟨w, hw⟩ := parse_status_ok_getItem hparse
            rw [hw] at hget
            exact Except.noConfusion hget
          · rename_i s hget
            exact Or.inr (Or.inr ⟨message, s, hsw, rfl⟩)

/-- A cycle never touches the timestamp: `timestamp` is assigned once
before the loop and never reassigned. -/
theorem runCycle_timestamp (st : LoopState) (f : FetchOutcome) :
    (runCycle st f).state.timestamp = st.timestamp := by
  unfold runCycle
  split
  · rfl
  · rfl
  · rename_i response hresp
    rcases cycleBody_cases st response with ⟨e, hcb⟩ | ⟨hcb, _⟩ | ⟨m, s, _, hcb⟩ <;>
      simp [hcb]

/-- Once `status_work` is set, a cycle never changes it and never sends
a status-change notification again. -/
theorem runCycle_some (st : LoopState) (f : FetchOutcome) (v : JValue)
    (hv : st.status_work = some v) :
    (runCycle st f).state.status_work = some v ∧
      countStatus (runCycle st f).sent = 0 := by
  unfold runCycle
  split
  · exact ⟨hv, rfl⟩
  · exact ⟨hv, rfl⟩
  · rename_i response hresp
    rcases cycleBody_cases st response with ⟨e, hcb⟩ | ⟨hcb, _⟩ | ⟨m, s, hnone, hcb⟩
    · simp [hcb, countStatus, Msg.isStatus, hv]
    · simp [hcb, countStatus, hv]
    · rw [hnone] at hv
      exact Option.noConfusion hv

/-- A cycle sends at most one status-change notification. -/
theorem runCycle_le_one (st : LoopState) (f : FetchOutcome) :
    countStatus (runCycle st f).sent ≤ 1 := by
  unfold runCycle
  split
  · simp [countStatus, Msg.isStatus]
  · simp [countStatus]
  · rename_i response hresp
    rcases cycleBody_cases st response with ⟨e, hcb⟩ | ⟨hcb, _⟩ | ⟨m, s, _, hcb⟩ <;>
      simp [hcb, countStatus, Msg.isStatus]

/-- A cycle that leaves `status_work` unset sent no status-change
notification: the notification branch always sets `status_work`. -/
theorem runCycle_none_silent (st : LoopState) (f : FetchOutcome)
    (h0 : st.status_work = none)
    (h1 : (runCycle st f).state.status_work = none) :
    countStatus (runCycle st f).sent = 0 := by
  unfold runCycle at h1 ⊢
  split at h1
  · simp [countStatus, Msg.isStatus]
  · simp [countStatus]
  · rename_i response hresp
    rcases cycleBody_cases st response with ⟨e, hcb⟩ | ⟨hcb, hne⟩ | ⟨m, s, _, hcb⟩
    · simp [hcb, countStatus, Msg.isStatus]
    · exact absurd h0 hne
    · rw [hcb] at h1
      simp at h1

/-- A crashed cycle sent nothing: the only uncaught exception escapes
from `get_api_answer`, before any `send_message` call. -/
theorem runCycle_crash_sent (st : LoopState) (f : FetchOutcome)
    (h : (runCycle st f).crash ≠ none) :
    (runCycle st f).sent = [] ∧ (runCycle st f).state = st := by
  unfold runCycle at h ⊢
  split at h
  · exact absurd rfl h
  · exact ⟨rfl, rfl⟩
  · rename_i response hresp
    rcases cycleBody_cases st response with ⟨e, hcb⟩ | ⟨hcb, _⟩ | ⟨m, s, _, hcb⟩ <;>
      rw [hcb] at h <;> exact absurd rfl h

/-- Once `status_work` is set, the rest of the run keeps it set and
sends no status-change notification. -/
theorem runLoop_some (v : JValue) : ∀ (fs : List FetchOutcome) (st : LoopState),
    st.status_work = some v →
    (runLoop st fs).state.status_work = some v ∧
      countStatus (runLoop st fs).sent = 0
  | [], st, hv => ⟨hv, rfl⟩
  | f :: fs, st, hv => by
    have hc := runCycle_some st f v hv
    unfold runLoop
    split
    · rename_i e hcrash
      exact ⟨hc.1, hc.2⟩
    · rename_i hcrash
      have ih := runLoop_some v fs (runCycle st f).state hc.1
      exact ⟨ih.1, by simp [countStatus_append, hc.2, ih.2]⟩

/-- From an unset `status_work`, a whole run sends at most one
status-change notification. -/
theorem runLoop_none : ∀ (fs : List FetchOutcome) (st : LoopState),
    st.status_work = none →
    countStatus (runLoop st fs).sent ≤ 1
  | [], st, h0 => by simp [runLoop, countStatus]
  | f :: fs, st, h0 => by
    unfold runLoop
    split
    · rename_i e hcrash
      exact runCycle_le_one st f
    · rename_i hcrash
      rw [countStatus_append]
      cases hsw : (runCycle st f).state.status_work with
      | none =>
        have h1 := runCycle_none_silent st f h0 hsw
        have ih := runLoop_none fs (runCycle st f).state hsw
        omega
      | some v =>
        have h1 := runCycle_le_one st f
        have ih := (runLoop_some v fs (runCycle st f).state hsw).2
        omega

/-- The whole run never touches the timestamp. -/
theorem runLoop_timestamp : ∀ (fs : List FetchOutcome) (st : LoopState),
    (runLoop st fs).state.timestamp = st.timestamp
  | [], st => rfl
  | f :: fs, st => by
    unfold runLoop
    split
    · exact runCycle_timestamp st f
    · rw [runLoop_timestamp fs (runCycle st f).state]
      exact runCycle_timestamp st f

/-- C1: the spec requires one notification per status transition, with
the verdict text of the new status.  Evaluated on two successful cycles
whose statuses are `reviewing` then `approved`, the loop sends only the
initial `reviewing` notification; the `reviewing → approved` transition
produces no message at all, because the send is guarded by
`status_work is None` and `status_work` is set by the first cycle. -/
theorem C1_transition_unnotified :
    (runLoop (LoopState.mk 0 none) [fetchReviewing, fetchApproved]).sent =
      [Msg.status "Изменился статус проверки работы \"X\". Работа взята на проверку ревьюером."] := rfl

/-- C2: the spec requires the cursor to advance to the current_date of
each successful response.  In the code `timestamp` is never reassigned:
over any schedule the final cursor equals the startup cursor, in
particular after a successful cycle whose response carries
current_date = 1 the cursor is still 0. -/
theorem C2_cursor_frozen :
    (∀ (st : LoopState) (fs : List FetchOutcome),
      (runLoop st fs).state.timestamp = st.timestamp)
  ∧ (runLoop (LoopState.mk 0 none) [fetchReviewing]).state.timestamp = 0 :=
  ⟨fun st fs => runLoop_timestamp fs st, rfl⟩

/-- C3: the spec requires every cycle-local failure, transport failures
included, to be contained by the loop.  On a `requests.RequestException`
(connection error or timeout) the except clause in `get_api_answer` only
logs, leaving `homework_statuses = None`, and the subsequent
`status_code` access raises `AttributeError`, which no handler in `main`
catches: the loop terminates, and a fetch scheduled after the failure is
never reached. -/
theorem C3_transport_failure_crashes :
    runCycle (LoopState.mk 0 none) (FetchOutcome.reqException "connection timed out") =
      CycleResult.mk (LoopState.mk 0 none) [] []
        (some (PyExc.attributeErr "NoneType object has no attribute status_code"))
  ∧ (runLoop (LoopState.mk 0 none)
      [FetchOutcome.reqException "connection timed out", fetchReviewing]).crash =
      some (PyExc.attributeErr "NoneType object has no attribute status_code")
  ∧ (runLoop (LoopState.mk 0 none)
      [FetchOutcome.reqException "connection timed out", fetchReviewing]).sent = [] :=
  ⟨rfl, rfl, rfl⟩

/-- C4 counterexample: a cycle whose response lacks the `homeworks` key
(a schema-validation failure) does deliver a chat message to the
recipient — the failure text — contradicting the claim that no message
of any kind is delivered on such cycles. -/
theorem C4_counterexample :
    (runCycle (LoopState.mk 0 none) (FetchOutcome.resp 200 (JValue.obj []))).sent ≠ [] ∧
    (runCycle (LoopState.mk 0 none) (FetchOutcome.resp 200 (JValue.obj []))).sent =
      [Msg.failure "Сбой в работе программы: Ключ homeworks отсутствует при получения ответа от API "] :=
  ⟨fun h => List.noConfusion h, rfl⟩

/-- C4 amended: every cycle that fails inside the validation/parsing
body sends no status-change notification, but it does send exactly one
chat message — the failure report `Сбой в работе программы: {error}` —
and logs the same text; the state is unchanged and the loop continues. -/
theorem C4_parse_error_reports_failure (st : LoopState) (response : JValue) (e : PyExc)
    (h : (cycleBody st response).2 = Except.error e) :
    runCycle st (FetchOutcome.resp 200 response) =
      CycleResult.mk st [Msg.failure ("Сбой в работе программы: " ++ PyExc.toMessage e)]
        ["Сбой в работе программы: " ++ PyExc.toMessage e] none := by
  rcases cycleBody_cases st response with ⟨e2, hcb⟩ | ⟨hcb, _⟩ | ⟨m, s, _, hcb⟩
  · rw [hcb] at h
    simp at h
    subst h
    simp [runCycle, get_api_answer, hcb]
  · rw [hcb] at h
    exact Except.noConfusion h
  · rw [hcb] at h
    exact Except.noConfusion h

/-- C4 witness: the amended statement at a concrete schema failure (the
`homeworks` key missing). -/
theorem C4_parse_error_reports_failure_witness :
    runCycle (LoopState.mk 0 none) (FetchOutcome.resp 200 (JValue.obj [("current_date", JValue.int 1)])) =
      CycleResult.mk (LoopState.mk 0 none)
        [Msg.failure ("Сбой в работе программы: " ++
          PyExc.toMessage (PyExc.typeErr "Ключ homeworks отсутствует при получения ответа от API "))]
        ["Сбой в работе программы: " ++
          PyExc.toMessage (PyExc.typeErr "Ключ homeworks отсутствует при получения ответа от API ")] none :=
  C4_parse_error_reports_failure (LoopState.mk 0 none) (JValue.obj [("current_date", JValue.int 1)])
    (PyExc.typeErr "Ключ homeworks отсутствует при получения ответа от API ") rfl

/-- C5 counterexample: with the first secret missing, the process does
exit before the loop, but `exit()` raises `SystemExit(None)`, whose
process exit status is 0 — there is no non-zero exit code. -/
theorem C5_counterexample :
    ¬ ∃ n : Nat, n ≠ 0 ∧
      (mainStartup none (some "token") (some "chat")).1 = StartupResult.exited n := by
  rintro ⟨n, hn, h⟩
  have h0 : (mainStartup none (some "token") (some "chat")).1 = StartupResult.exited 0 := rfl
  rw [h0] at h
  injection h with h2
  exact hn h2.symm

/-- C5 amended: if any of the three secrets is unset or empty, `main`
logs the critical line and exits with status 0 (via a bare `exit()`)
before the loop; if all three are set and non-empty, the loop is
entered. -/
theorem C5_missing_token_exit (p t c : Option String) :
    ((envTruthy p = false ∨ envTruthy t = false ∨ envTruthy c = false) →
      mainStartup p t c =
        (StartupResult.exited 0, ["Отсутствует обязательный TOKEN или ID."]))
  ∧ (envTruthy p = true → envTruthy t = true → envTruthy c = true →
      mainStartup p t c = (StartupResult.entered, [])) := by
  constructor
  · intro h
    have hct : check_tokens p t c = false := by
      rcases h with h | h | h <;> simp [check_tokens, h]
    simp [mainStartup, hct]
  · intro h1 h2 h3
    simp [mainStartup, check_tokens, h1, h2, h3]

/-- C5 witness: the amended statement at concrete environments — one
with the first secret missing, one with all three present. -/
theorem C5_missing_token_exit_witness :
    mainStartup none (some "token") (some "chat") =
      (StartupResult.exited 0, ["Отсутствует обязательный TOKEN или ID."])
  ∧ mainStartup (some "p") (some "t") (some "c") = (StartupResult.entered, []) :=
  ⟨(C5_missing_token_exit none (some "token") (some "chat")).1 (Or.inl rfl),
   (C5_missing_token_exit (some "p") (some "t") (some "c")).2 rfl rfl rfl⟩

/-- C6: the spec requires an empty `homeworks` list to be a legitimate
no-update outcome with no error and no message.  The code instead
evaluates `homework[0]`, raising `IndexError`; the generic handler
catches it and sends the failure text to the chat (and logs it).  Only
the last part of the claim holds: `status_work` stays unset. -/
theorem C6_empty_homeworks_failure :
    runCycle (LoopState.mk 0 none)
      (FetchOutcome.resp 200 (JValue.obj [("homeworks", JValue.list []), ("current_date", JValue.int 1)])) =
    CycleResult.mk (LoopState.mk 0 none)
      [Msg.failure "Сбой в работе программы: list index out of range"]
      ["Сбой в работе программы: list index out of range"] none := rfl

/-- C7 counterexample: a payload whose `current_date` is a string (not
an integer) passes validation and yields a result — contradicting both
the claimed integer check and the claim that validation never yields a
result with a non-integer cursor. -/
theorem C7_counterexample :
    check_response (JValue.obj
      [("homeworks", JValue.list []), ("current_date", JValue.str "not an integer")]) =
      Except.ok (JValue.list []) := rfl

/-- C7 amended: for object payloads, validation checks that a
`homeworks` key exists, then that a `current_date` key exists, each
violation raising a `TypeError` naming the missing key; when both keys
exist and `homeworks` holds a sequence, validation succeeds and returns
only that sequence — the type of `current_date` is never checked and
the cursor is not part of the result. -/
theorem C7_validation_order (kvs : List (String × JValue)) :
    (hasKey "homeworks" kvs = false →
      check_response (JValue.obj kvs) =
        Except.error (PyExc.typeErr "Ключ homeworks отсутствует при получения ответа от API "))
  ∧ (hasKey "homeworks" kvs = true → hasKey "current_date" kvs = false →
      check_response (JValue.obj kvs) =
        Except.error (PyExc.typeErr "Ключ current_date отсутствует при получения ответа от API "))
  ∧ (∀ xs : List JValue, kvs.lookup "homeworks" = some (JValue.list xs) →
      hasKey "current_date" kvs = true →
      check_response (JValue.obj kvs) = Except.ok (JValue.list xs)) := by
  refine ⟨fun h1 => ?_, fun h1 h2 => ?_, fun xs hx h2 => ?_⟩
  · simp [check_response, pyContains, h1]
  · obtain ⟨v, hv⟩ := hasKey_lookup_some h1
    simp [check_response, pyContains, h1, h2, pyGetItem, hv]
  · have h1 : hasKey "homeworks" kvs = true := lookup_some_hasKey hx
    simp [check_response, pyContains, h1, h2, pyGetItem, hx]

/-- C7 witness: the amended statement at concrete payloads — missing
`homeworks`, missing `current_date`, and a string-valued
`current_date` accepted. -/
theorem C7_validation_order_witness :
    check_response (JValue.obj [("current_date", JValue.int 1)]) =
      Except.error (PyExc.typeErr "Ключ homeworks отсутствует при получения ответа от API ")
  ∧ check_response (JValue.obj [("homeworks", JValue.list [])]) =
      Except.error (PyExc.typeErr "Ключ current_date отсутствует при получения ответа от API ")
  ∧ check_response (JValue.obj [("homeworks", JValue.list []), ("current_date", JValue.str "nope")]) =
      Except.ok (JValue.list []) :=
  ⟨(C7_validation_order [("current_date", JValue.int 1)]).1 rfl,
   (C7_validation_order [("homeworks", JValue.list [])]).2.1 rfl rfl,
   (C7_validation_order [("homeworks", JValue.list []), ("current_date", JValue.str "nope")]).2.2
     [] rfl rfl⟩

/-- C8 counterexample: two records with distinct unrecognized statuses
produce the same fixed error message, and the unrecognized value
`in_review` does not occur in that message — the error does not name
the value. -/
theorem C8_counterexample :
    parse_status (JValue.obj [("status", JValue.str "in_review"), ("homework_name", JValue.str "X")]) =
      Except.error (PyExc.expectedStatusesErr "Недокументированный статус домашней работы")
  ∧ parse_status (JValue.obj [("status", JValue.str "unexpected_status_123"), ("homework_name", JValue.str "X")]) =
      Except.error (PyExc.expectedStatusesErr "Недокументированный статус домашней работы")
  ∧ ¬ ("in_review".data <:+: "Недокументированный статус домашней работы".data) :=
  ⟨rfl, rfl, by decide⟩

/-- C8 amended: for every non-empty object record, parsing fails with a
`KeyError` naming `status` when that key is absent, then with a
`KeyError` naming `homework_name` when that key is absent; a hashable
status that is not a key of the verdict table fails with
`ExpectedStatusesError` carrying a fixed message that does not name the
value, while an unhashable status (a list) makes the membership test
itself raise `TypeError`; and a recognized status yields the message
built from the name and the fixed verdict text of the table. -/
theorem C8_parse_record (kvs : List (String × JValue)) (hne : kvs ≠ []) :
    (hasKey "status" kvs = false →
      parse_status (JValue.obj kvs) =
        Except.error (PyExc.keyErr "Ключ status отсутствует при получения ответа от API "))
  ∧ (hasKey "status" kvs = true → hasKey "homework_name" kvs = false →
      parse_status (JValue.obj kvs) =
        Except.error (PyExc.keyErr "Ключ homework_name отсутствует при получения ответа от API "))
  ∧ (∀ sv : JValue, kvs.lookup "status" = some sv →
      verdictsContains sv = Except.ok false →
      hasKey "homework_name" kvs = true →
      parse_status (JValue.obj kvs) =
        Except.error (PyExc.expectedStatusesErr "Недокументированный статус домашней работы"))
  ∧ (∀ xs : List JValue, kvs.lookup "status" = some (JValue.list xs) →
      hasKey "homework_name" kvs = true →
      parse_status (JValue.obj kvs) =
        Except.error (PyExc.typeErr "unhashable type: \x27list\x27"))
  ∧ (∀ (s verdict : String) (nameV : JValue),
      kvs.lookup "status" = some (JValue.str s) →
      HOMEWORK_VERDICTS.lookup s = some verdict →
      kvs.lookup "homework_name" = some nameV →
      parse_status (JValue.obj kvs) =
        Except.ok ("Изменился статус проверки работы \"" ++ pyStr nameV ++ "\". " ++ verdict)) := by
  have htr : pyTruthy (JValue.obj kvs) = true := by
    cases kvs with
    | nil => exact absurd rfl hne
    | cons a t => rfl
  refine ⟨fun h1 => ?_, fun h1 h2 => ?_, fun sv hv hverd h2 => ?_,
    fun xs hv h2 => ?_, fun s verdict nameV hv hverd hname => ?_⟩
  · simp [parse_status, htr, pyContains, h1]
  · obtain ⟨v, hv⟩ := hasKey_lookup_some h1
    simp [parse_status, htr, pyContains, h1, h2, pyGetItem, hv]
  · have h1 : hasKey "status" kvs = true := lookup_some_hasKey hv
    obtain ⟨nv, hnv⟩ := hasKey_lookup_some h2
    simp [parse_status, htr, pyContains, h1, h2, pyGetItem, hv, hnv, hverd]
  · have h1 : hasKey "status" kvs = true := lookup_some_hasKey hv
    obtain ⟨nv, hnv⟩ := hasKey_lookup_some h2
    simp [parse_status, htr, pyContains, h1, h2, pyGetItem, hv, hnv, verdictsContains]
  · have h1 : hasKey "status" kvs = true := lookup_some_hasKey hv
    have h2 : hasKey "homework_name" kvs = true := lookup_some_hasKey hname
    simp [parse_status, htr, pyContains, h1, h2, pyGetItem, hv, hname,
      verdictsContains, verdictGetItem, hverd]

/-- C8 witness: the amended statement at concrete records covering all
five outcomes. -/
theorem C8_parse_record_witness :
    parse_status (JValue.obj [("homework_name", JValue.str "hw")]) =
      Except.error (PyExc.keyErr "Ключ status отсутствует при получения ответа от API ")
  ∧ parse_status (JValue.obj [("status", JValue.str "approved")]) =
      Except.error (PyExc.keyErr "Ключ homework_name отсутствует при получения ответа от API ")
  ∧ parse_status (JValue.obj [("status", JValue.int 42), ("homework_name", JValue.str "hw")]) =
      Except.error (PyExc.expectedStatusesErr "Недокументированный статус домашней работы")
  ∧ parse_status (JValue.obj [("status", JValue.list []), ("homework_name", JValue.str "hw")]) =
      Except.error (PyExc.typeErr "unhashable type: \x27list\x27")
  ∧ parse_status (JValue.obj [("status", JValue.str "approved"), ("homework_name", JValue.str "hw")]) =
      Except.ok ("Изменился статус проверки работы \"" ++ pyStr (JValue.str "hw") ++ "\". " ++
        "Работа проверена: ревьюеру всё понравилось. Ура!") :=
  ⟨(C8_parse_record [("homework_name", JValue.str "hw")] (by simp)).1 rfl,
   (C8_parse_record [("status", JValue.str "approved")] (by simp)).2.1 rfl rfl,
   (C8_parse_record [("status", JValue.int 42), ("homework_name", JValue.str "hw")] (by simp)).2.2.1
     (JValue.int 42) rfl rfl rfl,
   (C8_parse_record [("status", JValue.list []), ("homework_name", JValue.str "hw")] (by simp)).2.2.2.1
     [] rfl rfl,
   (C8_parse_record [("status", JValue.str "approved"), ("homework_name", JValue.str "hw")] (by simp)).2.2.2.2
     "approved" "Работа проверена: ревьюеру всё понравилось. Ура!" (JValue.str "hw") rfl rfl rfl⟩

/-- C9: over any run started with `status_work` unset, at most one
status-change notification is ever sent; and once `status_work` holds
some value, the rest of the run keeps that value and sends no further
status-change notification. -/
theorem C9_at_most_one_notification (t : Int) (fs : List FetchOutcome) :
    countStatus (runLoop (LoopState.mk t none) fs).sent ≤ 1 ∧
    (∀ (st : LoopState) (v : JValue), st.status_work = some v →
      (runLoop st fs).state.status_work = some v ∧
        countStatus (runLoop st fs).sent = 0) :=
  ⟨runLoop_none fs (LoopState.mk t none) rfl,
   fun st v hv => runLoop_some v fs st hv⟩

/-- C9 witness: the statement at a concrete schedule, with the second
part instantiated at a state whose `status_work` is already set. -/
theorem C9_at_most_one_notification_witness :
    countStatus (runLoop (LoopState.mk 0 none) [fetchReviewing, fetchApproved]).sent ≤ 1 ∧
    (runLoop (LoopState.mk 0 (some (JValue.str "reviewing")))
      [fetchReviewing, fetchApproved]).state.status_work = some (JValue.str "reviewing") :=
  ⟨(C9_at_most_one_notification 0 [fetchReviewing, fetchApproved]).1,
   ((C9_at_most_one_notification 0 [fetchReviewing, fetchApproved]).2
     (LoopState.mk 0 (some (JValue.str "reviewing"))) (JValue.str "reviewing") rfl).1⟩

/-- C10: a cycle whose fetch returns a non-200 status code raises
`EndpointError`; the handler sends the error text itself to the chat,
logs the same text, leaves the state unchanged, and the loop continues
(no crash). -/
theorem C10_endpoint_error_reported (st : LoopState) (sc : Nat) (body : JValue)
    (h : sc ≠ 200) :
    runCycle st (FetchOutcome.resp sc body) =
      CycleResult.mk st
        [Msg.endpointErr ("Эндпоинт " ++ ENDPOINT ++ " недоступен. StatusCode: " ++ toString sc)]
        ["Эндпоинт " ++ ENDPOINT ++ " недоступен. StatusCode: " ++ toString sc] none := by
  unfold runCycle get_api_answer
  simp [h, PyExc.toMessage]

/-- C10 witness: the statement at a concrete HTTP 503 response. -/
theorem C10_endpoint_error_reported_witness :
    runCycle (LoopState.mk 0 none) (FetchOutcome.resp 503 JValue.null) =
      CycleResult.mk (LoopState.mk 0 none)
        [Msg.endpointErr ("Эндпоинт " ++ ENDPOINT ++ " недоступен. StatusCode: " ++ toString 503)]
        ["Эндпоинт " ++ ENDPOINT ++ " недоступен. StatusCode: " ++ toString 503] none :=
  C10_endpoint_error_reported (LoopState.mk 0 none) 503 JValue.null (by decide)
